import Mathlib

/-!
Verification of the hashtrack CLI (src/cli-rust/src/main.rs) against its
specification. Pure functions of main.rs are embedded directly; the
modules `api`, `context`, `session`, `track` and `tweet` are not part of
the sources available here, so their behaviour is modelled from the spec
(each such definition carries a doc comment starting `Modelled from the
spec:`). Effects are made explicit: state is passed and returned, console
output is returned as strings, and network activity is counted.
-/

/-- Token is an opaque string credential (spec section 3). -/
abbrev Token := String

/-- A tweet as displayed by the consumer loop (the Display form printed
by `println!("{}", tweet)`). -/
abbrev Tweet := String

/-- Modelled from the spec: the `api` module's error taxonomy (spec
section 4.2); the `api` module is not among the sources. -/
inductive ApiError
  | Network
  | Unauthenticated
  | Rejected
  | NotFound
  | ServerError
  | Malformed
deriving DecidableEq, Repr

/-- The Rust `{:?}` (Debug) rendering of an `ApiError` variant, used when
converting to a `CliError` message. -/
def ApiError.debugString : ApiError → String
  | .Network => "Network"
  | .Unauthenticated => "Unauthenticated"
  | .Rejected => "Rejected"
  | .NotFound => "NotFound"
  | .ServerError => "ServerError"
  | .Malformed => "Malformed"

/-- The `CliError` struct of main.rs: a message plus the flag deciding
whether `main` prints the usage text. -/
structure CliError where
  message : String
  is_usage_error : Bool
deriving DecidableEq, Repr

/-- `impl From<api::ApiError> for CliError` in main.rs: the message is the
Debug format of the error and the usage flag is false. -/
def CliError.fromApi (e : ApiError) : CliError :=
  ⟨e.debugString, false⟩

/-- The usage text constant `USAGE` of main.rs. -/
def USAGE : String :=
  "\nUsage:\n    hashtrack COMMAND [OPTIONS, ...]\n\n\nCommands:\n    login       Create a session for the CLI\n    logout      Delete the current session\n    list        List the tweets\n    watch       Watch for tweets via a subscription\n    tracks      List current tracks\n    track       Track a new hashtag\n    untrack     Untrack a hashtag\n\nOptions:\n    --endpoint, -e\n    --config, -c\n"

/-- Modelled from the spec: the `Context` of the `context` module (not
among the sources). It threads the remaining positional arguments, the
persisted token (Credential Store view) and the endpoint configuration. -/
structure Context where
  args : List String
  token : Option Token
  endpoint : String
deriving DecidableEq, Repr

/-- Modelled from the spec: `Context::next_arg` yields the next positional
argument, consuming it, or `None` when the arguments are exhausted. -/
def Context.next_arg (c : Context) : Option String × Context :=
  match c.args with
  | [] => (none, c)
  | a :: rest => (some a, { c with args := rest })

/-- Modelled from the spec: `Context::set_token` writes the token (or
clears it) through the Credential Store. The outcome of the storage write
is an explicit parameter: `none` means the write succeeded, `some msg`
means an I/O error with that message occurred, which surfaces as a
non-usage `CliError` (via `impl From<io::Error> for CliError`). -/
def Context.set_token (c : Context) (t : Option Token) (ioResult : Option String) :
    Except CliError Context :=
  match ioResult with
  | some msg => .error ⟨msg, false⟩
  | none => .ok { c with token := t }

/-- The `Session` returned by session::create; per the spec it carries the
token obtained from the remote service. -/
structure Session where
  token : Token
deriving DecidableEq, Repr

/-- The `login` function of main.rs, with the interactive prompt and the
remote exchange made explicit: `createResult` is the outcome of
`session::create` (the session-creation exchange, modelled as a pure
input since the `session` module is not among the sources), and
`ioResult` is the outcome of the credential-store write performed by
`Context::set_token`. Returns the command outcome together with the
resulting context; on any error the `?` operator propagates before
`set_token` runs, so the context is returned unchanged. -/
def login (c : Context) (createResult : Except ApiError Session)
    (ioResult : Option String) : Except CliError Unit × Context :=
  match createResult with
  | .error e => (.error (CliError.fromApi e), c)
  | .ok s =>
    match c.set_token (some s.token) ioResult with
    | .error e => (.error e, c)
    | .ok c' => (.ok (), c')

/-- The `logout` function of main.rs: `context.set_token(None)?`. The
returned `Nat` counts network requests issued, which is zero by the shape
of the code (no transport is ever consulted). -/
def logout (c : Context) (ioResult : Option String) :
    (Except CliError Unit × Context) × Nat :=
  (match c.set_token none ioResult with
   | .error e => (.error e, c)
   | .ok c' => (.ok (), c'), 0)

/-- Modelled from the spec: the `api` module's `request` (spec section
4.2). `tok` is the current token from the Credential Store, `net` is the
transport for an authenticated call, `netUnauth` for an unauthenticated
one. The second component counts network requests issued. When
`authenticated` is true and no token is stored, the call fails with
`Unauthenticated` before any request is sent. -/
def request (tok : Option Token) (authenticated : Bool)
    (net : Token → Except ApiError String) (netUnauth : Except ApiError String) :
    Except ApiError String × Nat :=
  if authenticated then
    match tok with
    | none => (.error .Unauthenticated, 0)
    | some t => (net t, 1)
  else
    (netUnauth, 1)

/-- Modelled from the spec: the Credential Store's durable storage state;
storage may be absent (first run), unreadable, or hold a token. -/
inductive RawStorage
  | absent
  | unreadable
  | holds (t : Token)
deriving DecidableEq, Repr

/-- Modelled from the spec: Credential Store `load()`; absent storage and
unreadable storage both yield no token rather than an error. -/
def loadStorage : RawStorage → Option Token
  | .absent => none
  | .unreadable => none
  | .holds t => some t

/-- Modelled from the spec: Credential Store `save(token)`; writes the
token, or clears stored state when given absent. -/
def saveStorage (_s : RawStorage) : Option Token → RawStorage
  | some t => .holds t
  | none => .absent

/-- The `Track` record as used by main.rs (only `pretty_name` is read). -/
structure Track where
  pretty_name : String
deriving DecidableEq, Repr

/-- The `create_track` function of main.rs: pops the hashtag argument; if
absent it fails locally with the fixed non-usage error and the `Nat`
network-request count is zero; otherwise `track::create` (the remote
call, modelled as the pure input `trackResult` since the `track` module
is not among the sources) is issued, counting one request, and on
success the printed confirmation line is returned. -/
def create_track (c : Context) (trackResult : Except ApiError Track) :
    (Except CliError String × Context) × Nat :=
  match c.next_arg with
  | (some _, c') =>
    (match trackResult with
     | .ok track => (.ok ("Now tracking " ++ track.pretty_name ++ "..."), c')
     | .error e => (.error (CliError.fromApi e), c'), 1)
  | (none, c') =>
    ((.error ⟨"Expected hashtag name to start tracking", false⟩, c'), 0)

/-- The `remove_track` function of main.rs, analogous to `create_track`
with `track::remove` as the remote call. -/
def remove_track (c : Context) (trackResult : Except ApiError Track) :
    (Except CliError String × Context) × Nat :=
  match c.next_arg with
  | (some _, c') =>
    (match trackResult with
     | .ok track => (.ok ("Stopped tracking " ++ track.pretty_name), c')
     | .error e => (.error (CliError.fromApi e), c'), 1)
  | (none, c') =>
    ((.error ⟨"Expected hashtag name to untrack", false⟩, c'), 0)

/-- The closed set of command words matched by `run_subcommand`. -/
def commandWords : List String :=
  ["status", "login", "logout", "list", "watch", "tracks", "track", "untrack"]

/-- The core operation selected by command dispatch, one per command word
of `run_subcommand` in main.rs. -/
inductive Command
  | status
  | login
  | logout
  | list
  | watch
  | tracks
  | track
  | untrack
deriving DecidableEq, Repr

/-- The dispatch structure of `run_subcommand` in main.rs: pop the next
argument and match it against the closed set of command words, selecting
the corresponding core operation; any other word yields the
`Unknown command` usage error and a missing word yields the
`Missing argument` usage error (both with `is_usage_error` true). -/
def run_subcommand_dispatch (c : Context) : Except CliError Command × Context :=
  match c.next_arg with
  | (some s, c') =>
    if s = "status" then (.ok .status, c')
    else if s = "login" then (.ok .login, c')
    else if s = "logout" then (.ok .logout, c')
    else if s = "list" then (.ok .list, c')
    else if s = "watch" then (.ok .watch, c')
    else if s = "tracks" then (.ok .tracks, c')
    else if s = "track" then (.ok .track, c')
    else if s = "untrack" then (.ok .untrack, c')
    else (.error ⟨"Unknown command " ++ s, true⟩, c')
  | (none, c') => (.error ⟨"Missing argument", true⟩, c')

/-- The error-rendering branch of `main` in main.rs: on success nothing is
printed for the error path; on a usage error the usage text is printed,
otherwise the error's message. -/
def renderError {α : Type} : Except CliError α → Option String
  | .ok _ => none
  | .error e => if e.is_usage_error then some USAGE else some e.message

/-- Modelled from the spec: how the feed ended, distinguished here only so
that theorems can state that the consumer cannot observe the
distinction (spec sections 4.4 and 9). -/
inductive FeedEnd
  | clean
  | errored (e : ApiError)
deriving DecidableEq, Repr

/-- Modelled from the spec: consumer-side handle over a live
subscription's output sequence — the posts still pending on the channel,
in the order the producer pushed them, followed by the way the feed
ended. -/
structure FeedHandle where
  pending : List Tweet
  ending : FeedEnd
deriving DecidableEq, Repr

/-- Modelled from the spec: `FeedHandle.next()` (the channel `recv`):
yields the next pending post, or `none` once the channel is closed;
further calls keep returning `none`. -/
def FeedHandle.next : FeedHandle → Option Tweet × FeedHandle
  | ⟨[], e⟩ => (none, ⟨[], e⟩)
  | ⟨t :: ts, e⟩ => (some t, ⟨ts, e⟩)

/-- Modelled from the spec: one record arriving on the live connection —
either a post that decodes correctly, or a record that fails to decode
(`Malformed`), or one carrying a per-record `ServerError`. -/
inductive RawRecord
  | post (t : Tweet)
  | malformed
  | serverError
deriving DecidableEq, Repr

/-- Modelled from the spec: the producer loop of `tweet::stream_latest`
(the `tweet` module is not among the sources): decodes records one at a
time in arrival order and pushes each good post onto the channel;
`Malformed` and per-record `ServerError` records are skipped rather than
terminating the feed. -/
def producerPosts : List RawRecord → List Tweet
  | [] => []
  | .post t :: rest => t :: producerPosts rest
  | .malformed :: rest => producerPosts rest
  | .serverError :: rest => producerPosts rest

/-- Modelled from the spec: `tweet::stream_latest` — subscribe to the live
feed, returning the consumer-side handle fed by the producer loop. -/
def stream_latest (raw : List RawRecord) (ending : FeedEnd) : FeedHandle :=
  ⟨producerPosts raw, ending⟩

/-- The consumer loop of `stream_latest_tweets` in main.rs: repeatedly
`recv` from the channel, printing each received tweet, and break when
`recv` returns `Err` (channel closed). The returned list is the sequence
of printed tweets, in print order. -/
def stream_latest_tweets : FeedHandle → List Tweet
  | ⟨[], _⟩ => []
  | ⟨t :: ts, e⟩ => t :: stream_latest_tweets ⟨ts, e⟩

/-- The consumer loop drains exactly the pending posts, in order. -/
theorem stream_latest_tweets_pending (posts : List Tweet) (e : FeedEnd) :
    stream_latest_tweets ⟨posts, e⟩ = posts := by
  induction posts with
  | nil => simp [stream_latest_tweets]
  | cons t ts ih => simp [stream_latest_tweets, ih]

/-- Reading back a saved value yields exactly that value. -/
theorem load_save (s : RawStorage) (t : Option Token) :
    loadStorage (saveStorage s t) = t := by
  cases t <;> rfl

/-- C1: for a stream emitting posts p1, p2, p3 and then closing cleanly,
three successive FeedHandle.next calls yield p1, p2, p3 in that exact
order, and a fourth call returns none; in general the consumer loop
observes the posts in exactly the order the producer emitted them. -/
theorem feed_delivers_posts_in_emission_order (p1 p2 p3 : Tweet)
    (posts : List Tweet) :
    (stream_latest [.post p1, .post p2, .post p3] .clean).next.1 = some p1 ∧
    (stream_latest [.post p1, .post p2, .post p3] .clean).next.2.next.1 = some p2 ∧
    (stream_latest [.post p1, .post p2, .post p3] .clean).next.2.next.2.next.1 = some p3 ∧
    (stream_latest [.post p1, .post p2, .post p3] .clean).next.2.next.2.next.2.next.1 = none ∧
    stream_latest_tweets (stream_latest (posts.map .post) .clean) = posts := by
  refine ⟨rfl, rfl, rfl, rfl, ?_⟩
  have hp : producerPosts (posts.map .post) = posts := by
    induction posts with
    | nil => rfl
    | cons t ts ih => simpa [producerPosts] using ih
  simpa [stream_latest, hp] using stream_latest_tweets_pending posts .clean

/-- C2: the consumer loop of stream_latest_tweets consumes every pending
post and ends exactly when the channel is closed; the list of printed
posts, and hence the loop's behaviour, is identical however the feed
ended, so clean end-of-stream and error termination are not
distinguished; next on a closed channel yields none and on a pending
post yields that post. -/
theorem watch_loop_ends_only_on_channel_close (posts : List Tweet)
    (e e' : FeedEnd) :
    stream_latest_tweets ⟨posts, e⟩ = posts ∧
    stream_latest_tweets ⟨posts, e⟩ = stream_latest_tweets ⟨posts, e'⟩ ∧
    (FeedHandle.next ⟨[], e⟩).1 = none ∧
    (∀ t ts, (FeedHandle.next ⟨t :: ts, e⟩).1 = some t) := by
  refine ⟨stream_latest_tweets_pending posts e, ?_, rfl, fun t ts => rfl⟩
  rw [stream_latest_tweets_pending posts e, stream_latest_tweets_pending posts e']

/-- C3: an authenticated API request with no stored token fails
immediately with ApiError.Unauthenticated and issues zero network
requests, for every transport. -/
theorem authenticated_request_without_token_fails_locally
    (net : Token → Except ApiError String) (netUnauth : Except ApiError String) :
    request none true net netUnauth = (.error ApiError.Unauthenticated, 0) ∧
    (request none true net netUnauth).2 = 0 := by
  exact ⟨rfl, rfl⟩

/-- C4: a failed login propagates the session-creation error without
writing the Credential Store: the context, and in particular the stored
token, is returned unchanged. -/
theorem failed_login_leaves_store_unchanged (c : Context) (e : ApiError)
    (io : Option String) :
    login c (.error e) io = (.error (CliError.fromApi e), c) ∧
    (login c (.error e) io).2.token = c.token := by
  exact ⟨rfl, rfl⟩

/-- C5: after a successful login exchange, the caller persists exactly the
token of the returned Session via set_token, so the stored token
afterwards is some of that token (some "T1" when the service returned
"T1"); nothing else in the context changes. -/
theorem successful_login_persists_token (c : Context) (s : Session) :
    (login c (.ok s) none).1 = .ok () ∧
    (login c (.ok s) none).2.token = some s.token ∧
    (login c (.ok s) none).2.args = c.args ∧
    (login c (.ok s) none).2.endpoint = c.endpoint ∧
    (login { c with token := none } (.ok ⟨"T1"⟩) none).2.token = some "T1" := by
  exact ⟨rfl, rfl, rfl, rfl, rfl⟩

/-- C6: logout sets the stored token to absent and changes nothing else —
arguments and endpoint are untouched and zero network requests are
issued; it can fail only with the storage I/O error (rendered as a
non-usage CliError); afterwards an authenticated request fails with
Unauthenticated. -/
theorem logout_clears_token_locally_only (c : Context)
    (net : Token → Except ApiError String) (nu : Except ApiError String) :
    logout c none = ((.ok (), { c with token := none }), 0) ∧
    (logout c none).1.2.args = c.args ∧
    (logout c none).1.2.endpoint = c.endpoint ∧
    (logout c none).2 = 0 ∧
    (∀ msg, (logout c (some msg)).1.1 = .error ⟨msg, false⟩) ∧
    request (logout c none).1.2.token true net nu
      = (.error ApiError.Unauthenticated, 0) := by
  exact ⟨rfl, rfl, rfl, rfl, fun msg => rfl, rfl⟩

/-- C7: for every nonempty sequence of saves, load returns exactly the
value passed to the most recent save (including absent), and on a first
run absent or unreadable storage yields no token rather than an error. -/
theorem credential_store_load_returns_last_save (init : RawStorage)
    (ops : List (Option Token)) (h : ops ≠ []) :
    loadStorage (ops.foldl saveStorage init) = ops.getLast h ∧
    loadStorage .absent = none ∧
    loadStorage .unreadable = none := by
  refine ⟨?_, rfl, rfl⟩
  induction ops generalizing init with
  | nil => exact absurd rfl h
  | cons a rest ih =>
    cases rest with
    | nil => simpa using load_save init a
    | cons b bs =>
      rw [List.foldl_cons, List.getLast_cons (by simp)]
      exact ih (saveStorage init a) (by simp)

/-- Witness for C7 at a concrete run: saves of "T1", absent, "T2" starting
from absent storage leave load returning some "T2". -/
theorem credential_store_load_returns_last_save_witness :
    ([some "T1", none, some "T2"] : List (Option Token)) ≠ [] ∧
    loadStorage (([some "T1", none, some "T2"] : List (Option Token)).foldl
      saveStorage .absent) = some "T2" := by
  refine ⟨by simp, ?_⟩
  have h := credential_store_load_returns_last_save .absent
    [some "T1", none, some "T2"] (by simp)
  simpa using h.1

/-- C8: a Malformed record or a per-record ServerError in the live stream
is skipped by the producer: for a source emitting p1, one bad record,
p2, then closing cleanly, the consumer observes exactly p1, p2, then end
of sequence. -/
theorem malformed_record_skipped_not_fatal (p1 p2 : Tweet) :
    stream_latest [.post p1, .malformed, .post p2] .clean = ⟨[p1, p2], .clean⟩ ∧
    (stream_latest [.post p1, .malformed, .post p2] .clean).next.1 = some p1 ∧
    (stream_latest [.post p1, .malformed, .post p2] .clean).next.2.next.1 = some p2 ∧
    (stream_latest [.post p1, .malformed, .post p2] .clean).next.2.next.2.next.1 = none ∧
    stream_latest [.post p1, .serverError, .post p2] .clean = ⟨[p1, p2], .clean⟩ := by
  exact ⟨rfl, rfl, rfl, rfl, rfl⟩

/-- C9: command dispatch is over the closed set of eight command words,
each mapped to its own core operation; any other first argument yields
the Unknown-command usage error and a missing first argument yields the
Missing-argument usage error, both with is_usage_error true, so main
prints the usage text. -/
theorem run_subcommand_closed_dispatch (tok : Option Token) (ep : String)
    (rest : List String) (w : String) (hw : w ∉ commandWords) :
    (run_subcommand_dispatch ⟨"status" :: rest, tok, ep⟩).1 = .ok .status ∧
    (run_subcommand_dispatch ⟨"login" :: rest, tok, ep⟩).1 = .ok .login ∧
    (run_subcommand_dispatch ⟨"logout" :: rest, tok, ep⟩).1 = .ok .logout ∧
    (run_subcommand_dispatch ⟨"list" :: rest, tok, ep⟩).1 = .ok .list ∧
    (run_subcommand_dispatch ⟨"watch" :: rest, tok, ep⟩).1 = .ok .watch ∧
    (run_subcommand_dispatch ⟨"tracks" :: rest, tok, ep⟩).1 = .ok .tracks ∧
    (run_subcommand_dispatch ⟨"track" :: rest, tok, ep⟩).1 = .ok .track ∧
    (run_subcommand_dispatch ⟨"untrack" :: rest, tok, ep⟩).1 = .ok .untrack ∧
    (run_subcommand_dispatch ⟨w :: rest, tok, ep⟩).1
      = .error ⟨"Unknown command " ++ w, true⟩ ∧
    renderError (run_subcommand_dispatch ⟨w :: rest, tok, ep⟩).1 = some USAGE ∧
    (run_subcommand_dispatch ⟨[], tok, ep⟩).1 = .error ⟨"Missing argument", true⟩ ∧
    renderError (run_subcommand_dispatch ⟨[], tok, ep⟩).1 = some USAGE := by
  simp only [commandWords, List.mem_cons, List.not_mem_nil, or_false, not_or] at hw
  obtain ⟨h1, h2, h3, h4, h5, h6, h7, h8⟩ := hw
  refine ⟨?_, ?_, ?_, ?_, ?_, ?_, ?_, ?_, ?_, ?_, rfl, rfl⟩
  all_goals
    simp [run_subcommand_dispatch, Context.next_arg, renderError,
      h1, h2, h3, h4, h5, h6, h7, h8]

/-- Witness for C9 at a concrete unknown word: "frobnicate" is outside the
command set and dispatches to the Unknown-command usage error. -/
theorem run_subcommand_closed_dispatch_witness :
    ("frobnicate" : String) ∉ commandWords ∧
    (run_subcommand_dispatch ⟨["frobnicate"], none, "ep"⟩).1
      = .error ⟨"Unknown command " ++ "frobnicate", true⟩ := by
  refine ⟨by decide, ?_⟩
  have h := run_subcommand_closed_dispatch none "ep" [] "frobnicate" (by decide)
  exact h.2.2.2.2.2.2.2.2.1

/-- C10: with no hashtag argument after the command word, create_track and
remove_track fail locally with their fixed messages and is_usage_error
false, issue zero remote calls, and main renders the message rather than
the usage text. -/
theorem track_missing_hashtag_local_error (tok : Option Token) (ep : String)
    (r1 r2 : Except ApiError Track) :
    create_track ⟨[], tok, ep⟩ r1
      = ((.error ⟨"Expected hashtag name to start tracking", false⟩,
          ⟨[], tok, ep⟩), 0) ∧
    remove_track ⟨[], tok, ep⟩ r2
      = ((.error ⟨"Expected hashtag name to untrack", false⟩,
          ⟨[], tok, ep⟩), 0) ∧
    renderError (create_track ⟨[], tok, ep⟩ r1).1.1
      = some "Expected hashtag name to start tracking" ∧
    renderError (remove_track ⟨[], tok, ep⟩ r2).1.1
      = some "Expected hashtag name to untrack" ∧
    renderError (create_track ⟨[], tok, ep⟩ r1).1.1 ≠ some USAGE ∧
    renderError (remove_track ⟨[], tok, ep⟩ r2).1.1 ≠ some USAGE := by
  refine ⟨rfl, rfl, rfl, rfl, ?_, ?_⟩
  · intro hcontra
    have heq : ("Expected hashtag name to start tracking" : String) = USAGE :=
      Option.some.inj hcontra
    exact absurd heq (by decide)
  · intro hcontra
    have heq : ("Expected hashtag name to untrack" : String) = USAGE :=
      Option.some.inj hcontra
    exact absurd heq (by decide)
